import Mathlib

/-!
Shallow embedding of the Amazon_scraper job-lifecycle engine
(`server/services/scraperService.js`, `server/controller/jobController.js`,
`server/controllers/jobsWebhookController.js`, `server/models/ScrapingJob.js`,
`server/models/Product.js`) together with proofs about its behaviour.

Conventions of the embedding:
* JavaScript strings that may be `undefined` are `Option String`; `none` is
  `undefined`, `some ""` is a present-but-empty string (falsy in JS).
* `csv-parser` delivers every cell as a string, so CSV row fields are
  `Option String` (absent header column = `none`).
* Machine timestamps (`Date.now()`, `new Date()`) are `Nat` milliseconds;
  ISO timestamp strings that only flow into log lines stay `String`.
* MongoDB `findOneAndUpdate({jobId}, u)` updates the first stored document
  whose `jobId` matches, and is a no-op when none matches.
-/

namespace AmazonScraper

/-- JS `a || b` on possibly-undefined strings: `a` unless `a` is
`undefined` or the empty string (both falsy), in which case `b`. -/
def jsOrStr (a b : Option String) : Option String :=
  match a with
  | some s => if s = "" then b else some s
  | none => b

/-- JS `a || d` with a string default: the value of `a` when truthy,
otherwise the default `d`. -/
def jsGetD (a : Option String) (d : String) : String :=
  match a with
  | some s => if s = "" then d else s
  | none => d

/-- JS truthiness of a possibly-undefined string: `undefined` and `""` are
falsy, every other string is truthy. -/
def truthyOpt : Option String → Bool
  | none => false
  | some s => s ≠ ""

/-- JS `someString.toUpperCase()`, character by character (the data here is
ASCII, where this agrees with JS). -/
def toUpperJS (s : String) : String :=
  String.mk (s.toList.map Char.toUpper)

/-- JS `someString.toLowerCase()`, character by character. -/
def toLowerJS (s : String) : String :=
  String.mk (s.toList.map Char.toLower)

/-- `someString.replace(/[^\d.]/g, "")`: keep only ASCII digits and dots. -/
def stripNonNumDot (s : String) : String :=
  String.mk (s.toList.filter (fun c => c.isDigit || c = '.'))

/-- `someString.replace(/,/g, "")`: drop every comma. -/
def stripCommas (s : String) : String :=
  String.mk (s.toList.filter (fun c => c ≠ ','))

/-- Value of a maximal run of leading ASCII digits; `none` when there is
no leading digit (JS `parseInt` returns `NaN` there). -/
def leadingDigits (cs : List Char) : Option Nat :=
  match cs.takeWhile Char.isDigit with
  | [] => none
  | ds => some (ds.foldl (fun n c => n * 10 + (c.toNat - '0'.toNat)) 0)

/-- JS `parseInt` on a string (radix 10): skip leading whitespace, accept an
optional sign, then read leading digits; `none` models `NaN`. -/
def parseIntJS (s : String) : Option Int :=
  match s.toList.dropWhile Char.isWhitespace with
  | '-' :: rest => (leadingDigits rest).map (fun n => -(n : Int))
  | '+' :: rest => (leadingDigits rest).map (fun n => (n : Int))
  | cs => (leadingDigits cs).map (fun n => (n : Int))

/-- JS `Math.max` where either operand may be `NaN` (modelled `none`):
`NaN` is absorbing. -/
def jsMax : Option Int → Option Int → Option Int
  | some a, some b => some (max a b)
  | _, _ => none

/-- Render a JS number that may be `NaN` into a template string. -/
def showJsNum : Option Int → String
  | some n => toString n
  | none => "NaN"

/-- `productName.replace(/\s+/g, "_")`: each maximal whitespace run becomes
one underscore.  `prevWs` records whether the previous character belonged to
a run already replaced. -/
def collapseWsAux : List Char → Bool → List Char
  | [], _ => []
  | c :: rest, prevWs =>
    if c.isWhitespace then
      (if prevWs then ([] : List Char) else ['_']) ++ collapseWsAux rest true
    else
      c :: collapseWsAux rest false

/-- `productName.replace(/\s+/g, "_").toLowerCase()` from
`processScrapingResults`. -/
def safeName (s : String) : String :=
  toLowerJS (String.mk (collapseWsAux s.toList false))

/-- One CSV row as produced by `csv-parser`: each header the service ever
consults is a field; `none` means the column is absent.  Field names with
spaces (`row["Original Price"]` …) carry the suffix `Spaced`, the
all-lower-case spelling of the success flag the suffix `Lower`. -/
structure Row where
  asin : Option String := none
  ASIN : Option String := none
  title : Option String := none
  Title : Option String := none
  price : Option String := none
  Price : Option String := none
  original_price : Option String := none
  originalPriceSpaced : Option String := none
  originalPrice : Option String := none
  rating : Option String := none
  Rating : Option String := none
  review_count : Option String := none
  reviewCountSpaced : Option String := none
  reviewCount : Option String := none
  image_url : Option String := none
  imageUrlSpaced : Option String := none
  imageUrl : Option String := none
  product_url : Option String := none
  productUrlSpaced : Option String := none
  productUrl : Option String := none
  best_seller : Option String := none
  bestSellerSpaced : Option String := none
  bestSeller : Option String := none
  delivery_info : Option String := none
  deliveryInfoSpaced : Option String := none
  deliveryInfo : Option String := none
  page_number : Option String := none
  pageNumberSpaced : Option String := none
  pageNumber : Option String := none
  timestamp : Option String := none
  scraped_successfully : Option String := none
  scrapedSuccessfullySpaced : Option String := none
  scrapedSuccessfullyLower : Option String := none
  success : Option String := none
deriving DecidableEq

/-- `row.scraped_successfully || row["Scraped Successfully"] ||
row["scraped successfully"] || row.success`. -/
def successFlag (r : Row) : Option String :=
  jsOrStr r.scraped_successfully
    (jsOrStr r.scrapedSuccessfullySpaced
      (jsOrStr r.scrapedSuccessfullyLower r.success))

/-- The success filter `scrapedSuccess?.toUpperCase() === "YES" ||
scrapedSuccess === "1" || scrapedSuccess === true`.  On `undefined` the
optional chaining yields `undefined ≠ "YES"`; `csv-parser` only ever
delivers strings, and JS strict equality between a string and the boolean
`true` is `false`, so the last disjunct never fires on this domain. -/
def successFlagPasses : Option String → Bool
  | none => false
  | some s => toUpperJS s = "YES" || s = "1"

/-- Whether a row passes the `scraped_successfully` filter of
`processScrapingResults`. -/
def rowPassesSuccess (r : Row) : Bool :=
  successFlagPasses (successFlag r)

/-- A persisted `Product` document (`server/models/Product.js`), holding the
values `processScrapingResults` computes for an accepted row.  The schema
stores `rating` as `parseFloat` of `ratingRaw`; the floating-point parse is
kept as the pre-parse string since no property here depends on its value. -/
structure Product where
  asin : String
  title : String
  price : String
  originalPrice : String
  ratingRaw : String
  reviewCount : Option Int
  imageUrl : Option String
  productUrl : Option String
  bestSeller : Bool
  deliveryInfo : Option String
  pageNumber : Option Int
  jobId : String
  productName : String
  /-- `row.timestamp ? new Date(row.timestamp) : new Date()`: `some ts`
  when the row supplied a truthy timestamp, `none` for ingestion time. -/
  scrapedAtSrc : Option String
deriving DecidableEq

/-- `parseInt(row.page_number || row["Page Number"] || row.pageNumber || 1)`:
when the whole string chain is falsy, the numeric fallback `1` is parsed. -/
def pageNumberOf (r : Row) : Option Int :=
  match jsOrStr r.page_number (jsOrStr r.pageNumberSpaced r.pageNumber) with
  | some s => if s = "" then some 1 else parseIntJS s
  | none => some 1

/-- The row → product translation inside the `.on("data", …)` handler of
`processScrapingResults`: rows failing the success filter are skipped, a
product object is built from the header-variant chains, and it is pushed
(and counted) only when both `asin` and `title` are truthy. -/
def parseRow (jobId productName : String) (r : Row) : Option Product :=
  if rowPassesSuccess r then
    let asinN := jsOrStr r.asin r.ASIN
    let titleN := jsOrStr r.title r.Title
    if truthyOpt asinN && truthyOpt titleN then
      some
        { asin := asinN.getD ""
          title := titleN.getD ""
          price := stripNonNumDot (jsGetD (jsOrStr r.price r.Price) "0")
          originalPrice :=
            stripNonNumDot
              (jsGetD
                (jsOrStr r.original_price
                  (jsOrStr r.originalPriceSpaced r.originalPrice)) "0")
          ratingRaw := jsGetD (jsOrStr r.rating r.Rating) "0"
          reviewCount :=
            parseIntJS
              (stripCommas
                (jsGetD
                  (jsOrStr r.review_count
                    (jsOrStr r.reviewCountSpaced r.reviewCount)) "0"))
          imageUrl := jsOrStr r.image_url (jsOrStr r.imageUrlSpaced r.imageUrl)
          productUrl :=
            jsOrStr r.product_url (jsOrStr r.productUrlSpaced r.productUrl)
          bestSeller :=
            jsOrStr r.best_seller (jsOrStr r.bestSellerSpaced r.bestSeller)
              = some "YES"
          deliveryInfo :=
            jsOrStr r.delivery_info
              (jsOrStr r.deliveryInfoSpaced r.deliveryInfo)
          pageNumber := pageNumberOf r
          jobId := jobId
          productName := productName
          scrapedAtSrc := if truthyOpt r.timestamp then r.timestamp else none }
    else
      none
  else
    none

/-- The accepted products of a CSV, in row order: exactly the rows the
`.on("data", …)` handler pushes onto `products`. -/
def ingestedProducts (jobId productName : String) (rows : List Row) :
    List Product :=
  rows.filterMap (parseRow jobId productName)

/-- The `totalScraped` counter: incremented once per pushed product. -/
def totalScrapedOf (jobId productName : String) (rows : List Row) : Nat :=
  (ingestedProducts jobId productName rows).length

/-- The `pagesProcessed` accumulator:
`pagesProcessed = Math.max(pagesProcessed, product.pageNumber)` over the
accepted rows, starting from `0`. -/
def pagesProcessedOf (jobId productName : String) (rows : List Row) :
    Option Int :=
  (ingestedProducts jobId productName rows).foldl
    (fun acc p => jsMax acc p.pageNumber) (some 0)

/-- A row whose normalised `asin` or `title` is missing/empty — the rows the
handler logs as "missing required fields". -/
def lacksRequired (r : Row) : Bool :=
  !(truthyOpt (jsOrStr r.asin r.ASIN) && truthyOpt (jsOrStr r.title r.Title))

/-- The top-level `progress` sub-document of `ScrapingJobSchema`
(`server/models/ScrapingJob.js`), with the schema defaults. -/
structure TopProgress where
  currentProduct : Nat := 0
  totalProducts : Nat := 0
  currentPage : Nat := 1
  percentage : Nat := 0
deriving DecidableEq

/-- One stored `ScrapingJob` document, with exactly the paths
`ScrapingJobSchema` declares: the `results.*` dotted paths of the Mongo
updates appear as `results`-prefixed fields.  `maxProduct` keeps the
schema's spelling, so the controller's `maxProducts` key is dropped by the
schema and the default stays.  The schema option is misspelled
`timeStamps`, so there are no `createdAt`/`updatedAt` paths, and Mongoose's
default strict update casting strips any update path the schema does not
declare (`updatedAt`, `results.progress`) before it reaches the store —
such writes are therefore not part of the persistent record. -/
structure Job where
  jobId : String
  productName : String
  maxProduct : Nat := 5
  maxPages : Nat := 1
  status : String := "pending"
  progress : TopProgress := {}
  resultsTotalScraped : Nat := 0
  resultsPagesProcessed : Option Int := some 0
  resultsCsvFile : Option String := none
  resultsJsonFile : Option String := none
  logs : List String := []
  error : Option String := none
  completedAt : Option Nat := none
deriving DecidableEq

/-- The durable and in-memory state the engine mutates: the `ScrapingJob`
collection, the `Product` collection, the module-level `activeJobs` map
(keyed by `jobId`), plus two event traces that make "was invoked" claims
stateable: one entry per `processScrapingResults` call and one per
`startScrapingProcess` hand-off. -/
structure ServerState where
  jobs : List Job := []
  products : List Product := []
  activeJobs : List String := []
  ingestionRuns : List String := []
  spawnAttempts : List String := []
deriving DecidableEq

/-- `ScrapingJob.findOneAndUpdate({jobId}, u)`: apply `u` to the first
document whose `jobId` matches; no match, no change. -/
def findOneAndUpdate (jobs : List Job) (jid : String) (f : Job → Job) :
    List Job :=
  match jobs with
  | [] => []
  | j :: rest =>
    if j.jobId = jid then f j :: rest else j :: findOneAndUpdate rest jid f

/-- `ScrapingJob.findOne({jobId})`. -/
def lookupJob (st : ServerState) (jid : String) : Option Job :=
  st.jobs.find? (fun j => j.jobId = jid)

/-- An Express JSON reply carrying the HTTP status and the `success` flag
(ES, the only fields the webhook handlers ever set besides `message`). -/
structure ApiResponse where
  httpStatus : Nat
  success : Bool
deriving DecidableEq

/-- The template literal of `updateJobStatus`:
`` `${timestamp || now} STATUS: ${status} - ${message || ""} ${error ? "ERROR: " + error : ""}` ``. -/
def statusLogLine (status : String)
    (message timestamp error : Option String) (nowIso : String) : String :=
  jsGetD timestamp nowIso ++ " STATUS: " ++ status ++ " - "
    ++ jsGetD message "" ++ " "
    ++ (match error with
        | some e => if e = "" then "" else "ERROR: " ++ e
        | none => "")

/-- `POST /api/jobs/:jobId/status` (`updateJobStatus` in
`jobsWebhookController.js`): build the log line, `findOneAndUpdate` setting
`status` and pushing the line, then answer `{success: true}` —
unconditionally, whether or not a job matched and whatever the stored
status was.  The update also names `updatedAt`, but the schema declares no
such path, so strict update casting strips it: `status` and the log push
are the only durable effects. -/
def updateJobStatus (st : ServerState) (jid status : String)
    (message timestamp error : Option String) (nowIso : String) :
    ServerState × ApiResponse :=
  let logLine := statusLogLine status message timestamp error nowIso
  ({ st with
      jobs := findOneAndUpdate st.jobs jid (fun j =>
        { j with
            status := status
            logs := j.logs ++ [logLine] }) },
   { httpStatus := 200, success := true })

/-- `POST /api/jobs/:jobId/progress` (`updateJobProgress`): the update
names `$set {"results.progress": progress}` and `updatedAt`, but
`ScrapingJobSchema` declares neither path, so strict update casting strips
both before they reach the store — the only durable effect is one pushed
`PROGRESS:` log line (which embeds the payload's JSON text), and
`{success: true}` is answered. -/
def updateJobProgress (st : ServerState) (jid progressJson : String)
    (timestamp : Option String) (nowIso : String) :
    ServerState × ApiResponse :=
  let logLine := jsGetD timestamp nowIso ++ " PROGRESS: " ++ progressJson
  ({ st with
      jobs := findOneAndUpdate st.jobs jid (fun j =>
        { j with logs := j.logs ++ [logLine] }) },
   { httpStatus := 200, success := true })

/-- `POST /api/jobs/:jobId/logs` (`addJobLog`): push one `LOG:` line and
answer `{success: true}` (the update's `updatedAt` key is stripped, the
schema declaring no such path). -/
def addJobLog (st : ServerState) (jid logText : String)
    (timestamp : Option String) (nowIso : String) :
    ServerState × ApiResponse :=
  let logLine := jsGetD timestamp nowIso ++ " LOG: " ++ logText
  ({ st with
      jobs := findOneAndUpdate st.jobs jid (fun j =>
        { j with logs := j.logs ++ [logLine] }) },
   { httpStatus := 200, success := true })

/-- The reply of `POST /api/jobs/start`. -/
structure StartJobResponse where
  httpStatus : Nat
  success : Bool
  jobId : Option String := none
  status : Option String := none
deriving DecidableEq

/-- ``jobId = `job_${Date.now()}_${Math.random().toString(36).substr(2, 9)}` ``. -/
def genJobId (nowMs : Nat) (rand : String) : String :=
  "job_" ++ toString nowMs ++ "_" ++ rand

/-- `startJob` in `jobController.js`: reject a falsy `productName` with 400;
otherwise generate the id, `job.save()` the new document — the schema's
unique index on `jobId` makes the save throw on a duplicate, which the
controller's catch turns into a 500 with no job stored — then hand off to
`startScrapingProcess` (recorded in `spawnAttempts`; its asynchronous
effects are modelled separately) and answer
`{success, jobId, status: "pending"}`.  The destructuring defaults are
`maxProducts = 5, maxPages = 1`; `maxPages` is a schema path and is stored,
while the `maxProducts` key is not one (the schema spells it `maxProduct`)
and is dropped, leaving the schema default. -/
def startJob (st : ServerState) (productName : Option String)
    (maxProducts maxPages : Option Nat) (nowMs : Nat) (rand : String) :
    ServerState × StartJobResponse :=
  if !truthyOpt productName then
    (st, { httpStatus := 400, success := false })
  else
    let jid := genJobId nowMs rand
    if st.jobs.any (fun j => j.jobId = jid) then
      (st, { httpStatus := 500, success := false })
    else
      let job : Job := { jobId := jid, productName := productName.getD ""
                         maxPages := maxPages.getD 1 }
      ({ st with
          jobs := st.jobs ++ [job]
          spawnAttempts := st.spawnAttempts ++ [jid] },
       { httpStatus := 200, success := true, jobId := some jid
         status := some "pending" })

/-- What the bulk `Product.insertMany(products, {ordered: false})` reported
back to `processScrapingResults`: full success, an E11000 duplicate-key
error with the sub-list actually inserted, or any other error (rethrown by
the catch) with whatever was inserted before it.  `ProductSchema`
(`server/models/Product.js`) declares no unique index on `asin`, so against
that schema the store reports `ok` and inserts every document. -/
inductive InsertOutcome where
  | ok
  | dupKey (inserted : List Product)
  | failed (inserted : List Product) (msg : String)
deriving DecidableEq

/-- The job-finalisation update at the end of `processScrapingResults`. -/
def finalizeJob (st : ServerState) (jid : String) (totalScraped : Nat)
    (pages : Option Int) (csvRef jsonRef : Option String) (now : Nat) :
    ServerState :=
  { st with
      jobs := findOneAndUpdate st.jobs jid (fun j =>
        { j with
            status := "completed"
            completedAt := some now
            resultsTotalScraped := totalScraped
            resultsPagesProcessed := pages
            resultsCsvFile := csvRef
            resultsJsonFile := jsonRef
            logs := j.logs ++
              ["Scraping completed: " ++ toString totalScraped
                ++ " products from " ++ showJsNum pages ++ " pages"] }) }

/-- The outer catch of `processScrapingResults`: mark the job failed with a
descriptive error. -/
def failJobIngestion (st : ServerState) (jid msg : String) (now : Nat) :
    ServerState :=
  { st with
      jobs := findOneAndUpdate st.jobs jid (fun j =>
        { j with
            status := "failed"
            error := some ("Failed to process results: " ++ msg)
            completedAt := some now
            logs := j.logs ++ ["Error processing results: " ++ msg] }) }

/-- `processScrapingResults(jobId, productName)`: parse the CSV (when the
file exists, `csvRows = some rows`), filter and normalise the rows, bulk
insert the accepted products, and finalise the job as `completed` with
`results.totalScraped` set to the parse-time counter.  The store's answer to
the bulk insert is the `outcome` argument; an E11000 answer is absorbed
(only logged), any other insert error reaches the outer catch and marks the
job `failed` — partial inserts are kept either way.  The call itself is
recorded in `ingestionRuns`. -/
def processScrapingResults (st : ServerState) (jid productName : String)
    (csvRows : Option (List Row)) (jsonExists : Bool)
    (outcome : InsertOutcome) (now : Nat) : ServerState :=
  let st1 : ServerState := { st with ingestionRuns := st.ingestionRuns ++ [jid] }
  let jsonRef : Option String :=
    if jsonExists then some (safeName productName ++ ".json") else none
  match csvRows with
  | none =>
      finalizeJob st1 jid 0 (some 0) none jsonRef now
  | some rows =>
      let products := ingestedProducts jid productName rows
      let csvRef := some (safeName productName ++ ".csv")
      if products.length > 0 then
        match outcome with
        | .ok =>
            finalizeJob { st1 with products := st1.products ++ products }
              jid products.length (pagesProcessedOf jid productName rows)
              csvRef jsonRef now
        | .dupKey inserted =>
            finalizeJob { st1 with products := st1.products ++ inserted }
              jid products.length (pagesProcessedOf jid productName rows)
              csvRef jsonRef now
        | .failed inserted msg =>
            failJobIngestion { st1 with products := st1.products ++ inserted }
              jid msg now
      else
        finalizeJob st1 jid 0 (some 0) csvRef jsonRef now

/-- The `pythonProcess.on("close", …)` handler of `startScrapingProcess`:
drop the registry entry unconditionally, then either run the Result
Ingestion Pipeline (exit code 0) or mark the job `failed` with the exit
code in `error`. -/
def onWorkerClose (st : ServerState) (jid productName : String) (code : Int)
    (csvRows : Option (List Row)) (jsonExists : Bool)
    (outcome : InsertOutcome) (now : Nat) : ServerState :=
  let st1 : ServerState :=
    { st with activeJobs := st.activeJobs.filter (fun x => x ≠ jid) }
  if code = 0 then
    processScrapingResults st1 jid productName csvRows jsonExists outcome now
  else
    { st1 with
        jobs := findOneAndUpdate st1.jobs jid (fun j =>
          { j with
              status := "failed"
              completedAt := some now
              error := some ("Exit code " ++ toString code)
              logs := j.logs ++ ["Failed with exit code " ++ toString code] }) }

/-! ### Helper lemmas about the store primitives -/

theorem find?_findOneAndUpdate (jobs : List Job) (jid : String)
    (f : Job → Job) (hf : ∀ j, (f j).jobId = j.jobId) :
    (findOneAndUpdate jobs jid f).find? (fun j => j.jobId = jid)
      = (jobs.find? (fun j => j.jobId = jid)).map f := by
  induction jobs with
  | nil => simp [findOneAndUpdate]
  | cons j rest ih =>
    by_cases h : j.jobId = jid
    · simp [findOneAndUpdate, h, List.find?_cons, hf]
    · simp [findOneAndUpdate, h, List.find?_cons, ih]

theorem findOneAndUpdate_eq_of_not_mem (jobs : List Job) (jid : String)
    (f : Job → Job) (h : ∀ j ∈ jobs, j.jobId ≠ jid) :
    findOneAndUpdate jobs jid f = jobs := by
  induction jobs with
  | nil => rfl
  | cons j rest ih =>
    have hj : j.jobId ≠ jid := h j (List.mem_cons_self j rest)
    simp only [findOneAndUpdate, if_neg hj]
    rw [ih (fun j' hj' => h j' (List.mem_cons_of_mem j hj'))]

theorem find?_append_of_none {α : Type} (p : α → Bool) (l1 l2 : List α)
    (h : l1.find? p = none) : (l1 ++ l2).find? p = l2.find? p := by
  induction l1 with
  | nil => rfl
  | cons a rest ih =>
    by_cases ha : p a
    · simp [List.find?_cons, ha] at h
    · simp only [List.find?_cons, ha] at h ⊢
      simp only [List.cons_append, List.find?_cons, ha]
      exact ih h

/-! ### C1 — terminal states and the status webhook -/

/-- C1, counterexample: a job stored as `completed` (a terminal state)
receives a status callback carrying `running`; `updateJobStatus` answers
`{success: true}` and the stored status becomes `running` — the update is
not rejected, no `ConflictError` is raised, and the job leaves the terminal
state, refuting the claim as stated. -/
theorem updateJobStatus_overwrites_terminal_cex :
    (updateJobStatus
        { jobs := [{ jobId := "job1", productName := "mouse",
                     status := "completed" }] }
        "job1" "running" none none none "2024-01-01").2
      = { httpStatus := 200, success := true }
    ∧ ((lookupJob
          (updateJobStatus
              { jobs := [{ jobId := "job1", productName := "mouse",
                           status := "completed" }] }
              "job1" "running" none none none "2024-01-01").1
          "job1").map Job.status) = some "running" :=
  ⟨rfl, rfl⟩

/-- C1 (amended): a status callback for a job in a terminal state
(`completed`, `failed` or `stopped`) is not rejected — `updateJobStatus`
has no terminal-state guard, so it overwrites the stored status with the
payload's status, appends the synthesized log line, and answers
`{success: true}`.  (The update's `updatedAt` key is stripped by strict
casting, the schema declaring no such path, so status and the log are the
whole durable effect.) -/
theorem updateJobStatus_terminal_not_rejected
    (st : ServerState) (jid newStatus : String)
    (message timestamp error : Option String) (nowIso : String)
    (j : Job) (hj : lookupJob st jid = some j)
    (hterm : j.status = "completed" ∨ j.status = "failed"
      ∨ j.status = "stopped") :
    (updateJobStatus st jid newStatus message timestamp error nowIso).2
      = { httpStatus := 200, success := true }
    ∧ lookupJob
        (updateJobStatus st jid newStatus message timestamp error nowIso).1
        jid
      = some { j with
          status := newStatus
          logs := j.logs
            ++ [statusLogLine newStatus message timestamp error nowIso] } := by
  refine ⟨rfl, ?_⟩
  have h1 := find?_findOneAndUpdate st.jobs jid
    (fun j => { j with
        status := newStatus
        logs := j.logs
          ++ [statusLogLine newStatus message timestamp error nowIso] })
    (fun j' => rfl)
  show (findOneAndUpdate st.jobs jid _).find? (fun j' => j'.jobId = jid) = _
  rw [h1, show st.jobs.find? (fun j' => j'.jobId = jid) = some j from hj]
  rfl

/-- Witness for C1 (amended) at a concrete terminal job. -/
theorem updateJobStatus_terminal_not_rejected_witness :
    lookupJob
        { jobs := [{ jobId := "job1", productName := "mouse",
                     status := "completed" }] } "job1"
      = some { jobId := "job1", productName := "mouse", status := "completed" }
    ∧ (("completed" : String) = "completed" ∨ ("completed" : String) = "failed"
        ∨ ("completed" : String) = "stopped")
    ∧ ((updateJobStatus
          { jobs := [{ jobId := "job1", productName := "mouse",
                       status := "completed" }] }
          "job1" "running" none none none "2024-01-01").2
        = { httpStatus := 200, success := true }
      ∧ lookupJob
          (updateJobStatus
              { jobs := [{ jobId := "job1", productName := "mouse",
                           status := "completed" }] }
              "job1" "running" none none none "2024-01-01").1 "job1"
        = some { jobId := "job1", productName := "mouse", status := "running"
                 logs :=
                   [statusLogLine "running" none none none "2024-01-01"] }) :=
  ⟨rfl, Or.inl rfl,
    updateJobStatus_terminal_not_rejected
      { jobs := [{ jobId := "job1", productName := "mouse",
                   status := "completed" }] }
      "job1" "running" none none none "2024-01-01"
      { jobId := "job1", productName := "mouse", status := "completed" }
      rfl (Or.inl rfl)⟩

/-! ### C2 — callbacks for an unknown jobId -/

/-- C2, counterexample: a status callback for `jobId="does-not-exist"`
against an empty store leaves every stored job untouched, but is answered
with HTTP 200 and `{success: true}` — it is not rejected, refuting the
claim's "rejected (not answered with success)" half. -/
theorem webhookUnknownJob_answers_success_cex :
    (updateJobStatus {} "does-not-exist" "completed" none none none
        "2024-01-01").2
      = { httpStatus := 200, success := true }
    ∧ (updateJobStatus {} "does-not-exist" "completed" none none none
        "2024-01-01").1 = ({} : ServerState) :=
  ⟨rfl, rfl⟩

/-- C2 (amended): a status, progress or log callback whose `jobId` matches
no stored job mutates nothing — the whole server state is returned
unchanged — but each of the three handlers still answers
`{success: true}` rather than rejecting the request. -/
theorem webhookUnknownJob_no_mutation
    (st : ServerState) (jid status progressJson logText : String)
    (message timestamp error : Option String) (nowIso : String)
    (h : ∀ j ∈ st.jobs, j.jobId ≠ jid) :
    updateJobStatus st jid status message timestamp error nowIso
      = (st, { httpStatus := 200, success := true })
    ∧ updateJobProgress st jid progressJson timestamp nowIso
      = (st, { httpStatus := 200, success := true })
    ∧ addJobLog st jid logText timestamp nowIso
      = (st, { httpStatus := 200, success := true }) := by
  refine ⟨?_, ?_, ?_⟩ <;>
    · simp only [updateJobStatus, updateJobProgress, addJobLog]
      rw [findOneAndUpdate_eq_of_not_mem st.jobs jid _ h]

/-- Witness for C2 (amended): a store holding one unrelated job. -/
theorem webhookUnknownJob_no_mutation_witness :
    (∀ j ∈ ({ jobs := [{ jobId := "job1", productName := "mouse" }] }
        : ServerState).jobs, j.jobId ≠ "does-not-exist")
    ∧ (updateJobStatus
          { jobs := [{ jobId := "job1", productName := "mouse" }] }
          "does-not-exist" "completed" none none none "2024-01-01"
        = ({ jobs := [{ jobId := "job1", productName := "mouse" }] },
           { httpStatus := 200, success := true })
      ∧ updateJobProgress
          { jobs := [{ jobId := "job1", productName := "mouse" }] }
          "does-not-exist" "p" none "2024-01-01"
        = ({ jobs := [{ jobId := "job1", productName := "mouse" }] },
           { httpStatus := 200, success := true })
      ∧ addJobLog
          { jobs := [{ jobId := "job1", productName := "mouse" }] }
          "does-not-exist" "hello" none "2024-01-01"
        = ({ jobs := [{ jobId := "job1", productName := "mouse" }] },
           { httpStatus := 200, success := true })) :=
  ⟨by decide,
    webhookUnknownJob_no_mutation _ "does-not-exist" "completed" "p" "hello"
      none none none "2024-01-01" (by decide)⟩

/-! ### C9 — the progress webhook's durable effect -/

/-- C9, counterexample: `ScrapingJobSchema` declares no `results.progress`
path (its `results` sub-document has only totalScraped, pagesProcessed,
csvFile, jsonFile) and no `updatedAt` path (the timestamps option is
misspelled `timeStamps`), and Mongoose strict update casting strips
undeclared paths from `findOneAndUpdate`.  At a concrete running job, the
record stored after a progress callback is therefore the prior record with
exactly one appended log line — the payload is persisted in no field, so it
is not "written into the nested results.progress path" as the claim
states. -/
theorem updateJobProgress_payload_not_persisted_cex :
    (updateJobProgress
        { jobs := [{ jobId := "job1", productName := "mouse",
                     status := "running" }] }
        "job1" "p50" none "2024-01-01").2
      = { httpStatus := 200, success := true }
    ∧ lookupJob
        (updateJobProgress
            { jobs := [{ jobId := "job1", productName := "mouse",
                         status := "running" }] }
            "job1" "p50" none "2024-01-01").1 "job1"
      = some { jobId := "job1", productName := "mouse", status := "running",
               logs := ["2024-01-01 PROGRESS: p50"] } :=
  ⟨rfl, rfl⟩

/-- C9 (amended): a progress callback on an existing job appends exactly
one synthesized `PROGRESS:` log line (which embeds the payload JSON) and
answers `{success: true}`; every other field of the stored record — the
top-level `progress` snapshot, the whole `results` sub-document, status,
error, timestamps — is unchanged, because the update keys
`results.progress` and `updatedAt` name paths the schema does not
declare and strict casting strips them. -/
theorem updateJobProgress_only_appends_log
    (st : ServerState) (jid progressJson : String)
    (timestamp : Option String) (nowIso : String)
    (j : Job) (hj : lookupJob st jid = some j) :
    (updateJobProgress st jid progressJson timestamp nowIso).2
      = { httpStatus := 200, success := true }
    ∧ lookupJob (updateJobProgress st jid progressJson timestamp nowIso).1
        jid
      = some { j with
          logs := j.logs
            ++ [jsGetD timestamp nowIso ++ " PROGRESS: " ++ progressJson] }
    ∧ (lookupJob (updateJobProgress st jid progressJson timestamp nowIso).1
          jid).map Job.progress = some j.progress := by
  have hmain :
      lookupJob (updateJobProgress st jid progressJson timestamp nowIso).1
          jid
        = some { j with
            logs := j.logs
              ++ [jsGetD timestamp nowIso ++ " PROGRESS: "
                    ++ progressJson] } := by
    have h1 := find?_findOneAndUpdate st.jobs jid
      (fun j => { j with
          logs := j.logs
            ++ [jsGetD timestamp nowIso ++ " PROGRESS: " ++ progressJson] })
      (fun j' => rfl)
    show (findOneAndUpdate st.jobs jid _).find? (fun j' => j'.jobId = jid) = _
    rw [h1, show st.jobs.find? (fun j' => j'.jobId = jid) = some j from hj]
    rfl
  exact ⟨rfl, hmain, by rw [hmain]; rfl⟩

/-- Witness for C9 (amended) at a concrete running job with a non-default
top-level progress snapshot, showing the snapshot is retained. -/
theorem updateJobProgress_only_appends_log_witness :
    lookupJob
        { jobs := [{ jobId := "job1", productName := "mouse",
                     status := "running",
                     progress := { currentProduct := 2, totalProducts := 5,
                                   currentPage := 1, percentage := 40 } }] }
        "job1"
      = some { jobId := "job1", productName := "mouse", status := "running",
               progress := { currentProduct := 2, totalProducts := 5,
                             currentPage := 1, percentage := 40 } }
    ∧ ((updateJobProgress
          { jobs := [{ jobId := "job1", productName := "mouse",
                       status := "running",
                       progress := { currentProduct := 2, totalProducts := 5,
                                     currentPage := 1, percentage := 40 } }] }
          "job1" "p50" none "2024-01-01").2
        = { httpStatus := 200, success := true }
      ∧ lookupJob
          (updateJobProgress
              { jobs := [{ jobId := "job1", productName := "mouse",
                           status := "running",
                           progress := { currentProduct := 2,
                                         totalProducts := 5,
                                         currentPage := 1,
                                         percentage := 40 } }] }
              "job1" "p50" none "2024-01-01").1 "job1"
        = some { jobId := "job1", productName := "mouse", status := "running",
                 progress := { currentProduct := 2, totalProducts := 5,
                               currentPage := 1, percentage := 40 },
                 logs := ["2024-01-01 PROGRESS: p50"] }
      ∧ (lookupJob
          (updateJobProgress
              { jobs := [{ jobId := "job1", productName := "mouse",
                           status := "running",
                           progress := { currentProduct := 2,
                                         totalProducts := 5,
                                         currentPage := 1,
                                         percentage := 40 } }] }
              "job1" "p50" none "2024-01-01").1
            "job1").map Job.progress
        = some { currentProduct := 2, totalProducts := 5, currentPage := 1,
                 percentage := 40 }) :=
  ⟨rfl,
    updateJobProgress_only_appends_log
      { jobs := [{ jobId := "job1", productName := "mouse",
                   status := "running",
                   progress := { currentProduct := 2, totalProducts := 5,
                                 currentPage := 1, percentage := 40 } }] }
      "job1" "p50" none "2024-01-01"
      { jobId := "job1", productName := "mouse", status := "running",
        progress := { currentProduct := 2, totalProducts := 5,
                      currentPage := 1, percentage := 40 } }
      rfl⟩


/-! ### startJob: validation and id generation -/

theorem startJob_success_spec (st : ServerState) (pn : Option String)
    (mp mpg : Option Nat) (t : Nat) (r : String)
    (h : (startJob st pn mp mpg t r).2.success = true) :
    truthyOpt pn = true
    ∧ st.jobs.any (fun j => j.jobId = genJobId t r) = false
    ∧ (startJob st pn mp mpg t r).1
      = { st with
          jobs := st.jobs
            ++ [{ jobId := genJobId t r, productName := pn.getD ""
                  maxPages := mpg.getD 1 }]
          spawnAttempts := st.spawnAttempts ++ [genJobId t r] }
    ∧ (startJob st pn mp mpg t r).2
      = { httpStatus := 200, success := true, jobId := some (genJobId t r)
          status := some "pending" } := by
  cases htr : truthyOpt pn with
  | false =>
    exfalso
    rw [startJob] at h
    rw [htr] at h
    exact Bool.noConfusion h
  | true =>
    cases hany : st.jobs.any (fun j => j.jobId = genJobId t r) with
    | true =>
      exfalso
      rw [startJob] at h
      rw [htr] at h
      simp only [Bool.not_true, Bool.false_eq_true, if_false] at h
      rw [hany] at h
      exact Bool.noConfusion h
    | false =>
      refine ⟨rfl, rfl, ?_, ?_⟩ <;>
        · rw [startJob, htr]
          simp only [Bool.not_true, Bool.false_eq_true, if_false]
          rw [hany]
          rfl

/-! ### C5 — StartJob validation of productName -/

/-- C5, counterexample: a `StartJob` request whose `productName` is the
single space `" "` (whitespace-only) is not rejected — `!productName` is
false for a non-empty string — so the handler answers success, stores a
job, and hands off to `startScrapingProcess`, refuting the claim. -/
theorem startJob_whitespace_name_accepted_cex :
    (startJob {} (some " ") none none 0 "r9").2.success = true
    ∧ (startJob {} (some " ") none none 0 "r9").1.jobs
      = [{ jobId := genJobId 0 "r9", productName := " " }]
    ∧ (startJob {} (some " ") none none 0 "r9").1.spawnAttempts
      = [genJobId 0 "r9"] :=
  ⟨rfl, rfl, rfl⟩

/-- C5 (amended): only an absent or empty-string `productName` fails the
`!productName` validation; such a request is answered with HTTP 400 and
the state is returned unchanged — no job record created, no worker spawn
attempted.  (A whitespace-only name is truthy and passes, per the
counterexample.) -/
theorem startJob_rejects_absent_or_empty_name
    (st : ServerState) (pn : Option String) (mp mpg : Option Nat)
    (t : Nat) (r : String) (h : pn = none ∨ pn = some "") :
    startJob st pn mp mpg t r
      = (st, { httpStatus := 400, success := false }) := by
  rcases h with h | h <;> subst h <;> rfl

/-- Witness for C5 (amended) on the empty-string name. -/
theorem startJob_rejects_absent_or_empty_name_witness :
    ((some "" : Option String) = none ∨ (some "" : Option String) = some "")
    ∧ startJob {} (some "") none none 3 "abc"
      = ({}, { httpStatus := 400, success := false }) :=
  ⟨Or.inr rfl,
    startJob_rejects_absent_or_empty_name {} (some "") none none 3 "abc"
      (Or.inr rfl)⟩

/-! ### C8 — distinct jobIds and pending initial status -/

/-- C8: for two `StartJob` calls that both succeed (the store's unique
index on `jobId` makes `job.save()` fail — answered 500, nothing stored —
on a collision, so a successful call's id never repeats), the returned
`jobId`s are distinct even for identical arguments, and each stored job's
initial status is `pending`. -/
theorem startJob_distinct_ids_and_pending
    (st : ServerState) (pn1 pn2 : Option String)
    (mp1 mpg1 mp2 mpg2 : Option Nat) (t1 t2 : Nat) (r1 r2 : String)
    (h1 : (startJob st pn1 mp1 mpg1 t1 r1).2.success = true)
    (h2 : (startJob (startJob st pn1 mp1 mpg1 t1 r1).1
            pn2 mp2 mpg2 t2 r2).2.success = true) :
    (startJob st pn1 mp1 mpg1 t1 r1).2.jobId
      ≠ (startJob (startJob st pn1 mp1 mpg1 t1 r1).1
          pn2 mp2 mpg2 t2 r2).2.jobId
    ∧ (startJob st pn1 mp1 mpg1 t1 r1).2.jobId = some (genJobId t1 r1)
    ∧ (lookupJob (startJob st pn1 mp1 mpg1 t1 r1).1
        (genJobId t1 r1)).map Job.status = some "pending"
    ∧ (lookupJob (startJob (startJob st pn1 mp1 mpg1 t1 r1).1
          pn2 mp2 mpg2 t2 r2).1
        (genJobId t2 r2)).map Job.status = some "pending" := by
  obtain ⟨htr1, hany1, hst1, hresp1⟩ :=
    startJob_success_spec st pn1 mp1 mpg1 t1 r1 h1
  obtain ⟨htr2, hany2, hst2, hresp2⟩ :=
    startJob_success_spec (startJob st pn1 mp1 mpg1 t1 r1).1
      pn2 mp2 mpg2 t2 r2 h2
  have hmem1 :
      ({ jobId := genJobId t1 r1, productName := pn1.getD ""
         maxPages := mpg1.getD 1 } : Job)
        ∈ (startJob st pn1 mp1 mpg1 t1 r1).1.jobs := by
    rw [hst1]; simp
  have hne : genJobId t1 r1 ≠ genJobId t2 r2 := by
    intro heq
    have hx : (startJob st pn1 mp1 mpg1 t1 r1).1.jobs.any
        (fun j => j.jobId = genJobId t2 r2) = true :=
      List.any_eq_true.mpr ⟨_, hmem1, by simp [heq]⟩
    rw [hx] at hany2
    exact Bool.noConfusion hany2
  have hfind1 :
      st.jobs.find? (fun j => j.jobId = genJobId t1 r1) = none := by
    apply List.find?_eq_none.mpr
    intro x hx
    intro hpx
    have : st.jobs.any (fun j => j.jobId = genJobId t1 r1) = true :=
      List.any_eq_true.mpr ⟨x, hx, hpx⟩
    rw [this] at hany1
    exact Bool.noConfusion hany1
  have hfind2 :
      (startJob st pn1 mp1 mpg1 t1 r1).1.jobs.find?
        (fun j => j.jobId = genJobId t2 r2) = none := by
    apply List.find?_eq_none.mpr
    intro x hx
    intro hpx
    have : (startJob st pn1 mp1 mpg1 t1 r1).1.jobs.any
        (fun j => j.jobId = genJobId t2 r2) = true :=
      List.any_eq_true.mpr ⟨x, hx, hpx⟩
    rw [this] at hany2
    exact Bool.noConfusion hany2
  refine ⟨?_, ?_, ?_, ?_⟩
  · rw [hresp1, hresp2]
    simp only [ne_eq, Option.some.injEq]
    exact hne
  · rw [hresp1]
  · show ((startJob st pn1 mp1 mpg1 t1 r1).1.jobs.find?
        (fun j => j.jobId = genJobId t1 r1)).map Job.status = some "pending"
    rw [hst1]
    rw [find?_append_of_none _ st.jobs _ hfind1]
    simp [List.find?_cons]
  · show ((startJob (startJob st pn1 mp1 mpg1 t1 r1).1
          pn2 mp2 mpg2 t2 r2).1.jobs.find?
        (fun j => j.jobId = genJobId t2 r2)).map Job.status = some "pending"
    rw [hst2]
    rw [find?_append_of_none _ _ _ hfind2]
    simp [List.find?_cons]

/-- Witness for C8: two concrete successful calls with identical arguments
but different entropy. -/
theorem startJob_distinct_ids_and_pending_witness :
    (startJob {} (some "mouse") none none 0 "aaa").2.success = true
    ∧ (startJob (startJob {} (some "mouse") none none 0 "aaa").1
        (some "mouse") none none 0 "bbb").2.success = true
    ∧ ((startJob {} (some "mouse") none none 0 "aaa").2.jobId
        ≠ (startJob (startJob {} (some "mouse") none none 0 "aaa").1
            (some "mouse") none none 0 "bbb").2.jobId
      ∧ (startJob {} (some "mouse") none none 0 "aaa").2.jobId
        = some (genJobId 0 "aaa")
      ∧ (lookupJob (startJob {} (some "mouse") none none 0 "aaa").1
          (genJobId 0 "aaa")).map Job.status = some "pending"
      ∧ (lookupJob (startJob (startJob {} (some "mouse") none none 0 "aaa").1
            (some "mouse") none none 0 "bbb").1
          (genJobId 0 "bbb")).map Job.status = some "pending") :=
  ⟨rfl, rfl,
    startJob_distinct_ids_and_pending {} (some "mouse") (some "mouse")
      none none none none 0 0 "aaa" "bbb" rfl rfl⟩

/-! ### C6 — non-zero worker exit -/

/-- C6: when the worker exits with a non-zero code, the `close` handler
marks the job `failed` with the exit code in `error` and a failure log
line; `processScrapingResults` is not invoked (the ingestion trace is
unchanged) and no `Product` records are created. -/
theorem workerExit_nonzero_marks_failed_no_ingestion
    (st : ServerState) (jid pn : String) (code : Int)
    (csvRows : Option (List Row)) (jsonExists : Bool)
    (outcome : InsertOutcome) (now : Nat) (j : Job)
    (hc : code ≠ 0) (hj : lookupJob st jid = some j) :
    (onWorkerClose st jid pn code csvRows jsonExists outcome now).products
      = st.products
    ∧ (onWorkerClose st jid pn code csvRows jsonExists outcome
        now).ingestionRuns = st.ingestionRuns
    ∧ lookupJob (onWorkerClose st jid pn code csvRows jsonExists outcome now)
        jid
      = some { j with
          status := "failed"
          completedAt := some now
          error := some ("Exit code " ++ toString code)
          logs := j.logs ++ ["Failed with exit code " ++ toString code] } := by
  have hun : onWorkerClose st jid pn code csvRows jsonExists outcome now
      = { st with
          activeJobs := st.activeJobs.filter (fun x => x ≠ jid)
          jobs := findOneAndUpdate st.jobs jid (fun j =>
            { j with
                status := "failed"
                completedAt := some now
                error := some ("Exit code " ++ toString code)
                logs := j.logs
                  ++ ["Failed with exit code " ++ toString code] }) } := by
    rw [onWorkerClose, if_neg hc]
  rw [hun]
  refine ⟨rfl, rfl, ?_⟩
  have h1 := find?_findOneAndUpdate st.jobs jid
    (fun j => { j with
        status := "failed"
        completedAt := some now
        error := some ("Exit code " ++ toString code)
        logs := j.logs ++ ["Failed with exit code " ++ toString code] })
    (fun j' => rfl)
  show (findOneAndUpdate st.jobs jid _).find? (fun j' => j'.jobId = jid) = _
  rw [h1, show st.jobs.find? (fun j' => j'.jobId = jid) = some j from hj]
  rfl

/-- Witness for C6: a running job whose worker exits with code 1. -/
theorem workerExit_nonzero_marks_failed_no_ingestion_witness :
    ((1 : Int) ≠ 0)
    ∧ lookupJob
        { jobs := [{ jobId := "job1", productName := "mouse",
                     status := "running" }] } "job1"
      = some { jobId := "job1", productName := "mouse", status := "running" }
    ∧ ((onWorkerClose
          { jobs := [{ jobId := "job1", productName := "mouse",
                       status := "running" }] }
          "job1" "mouse" 1 none false .ok 7).products = []
      ∧ (onWorkerClose
          { jobs := [{ jobId := "job1", productName := "mouse",
                       status := "running" }] }
          "job1" "mouse" 1 none false .ok 7).ingestionRuns = []
      ∧ lookupJob
          (onWorkerClose
            { jobs := [{ jobId := "job1", productName := "mouse",
                         status := "running" }] }
            "job1" "mouse" 1 none false .ok 7) "job1"
        = some { jobId := "job1", productName := "mouse", status := "failed",
                 completedAt := some 7, error := some "Exit code 1",
                 logs := ["Failed with exit code 1"] }) :=
  ⟨by decide, rfl,
    workerExit_nonzero_marks_failed_no_ingestion
      { jobs := [{ jobId := "job1", productName := "mouse",
                   status := "running" }] }
      "job1" "mouse" 1 none false .ok 7
      { jobId := "job1", productName := "mouse", status := "running" }
      (by decide) rfl⟩

/-! ### C7 — malformed rows are skipped, the rest processed -/

/-- C7: a row whose normalised `asin` or `title` is missing is never turned
into a product, removing it from a CSV changes neither the persisted
product list nor `totalScraped` (so it cannot abort the rest of the file),
while a row that passes the success filter and has both required fields is
always accepted and adds exactly one to `totalScraped`. -/
theorem malformed_row_skipped_rest_processed
    (jid pn : String) (rows1 rows2 : List Row) (bad good : Row)
    (hbad : lacksRequired bad = true)
    (hg1 : rowPassesSuccess good = true)
    (hg2 : lacksRequired good = false) :
    parseRow jid pn bad = none
    ∧ ingestedProducts jid pn (rows1 ++ bad :: rows2)
      = ingestedProducts jid pn (rows1 ++ rows2)
    ∧ totalScrapedOf jid pn (rows1 ++ bad :: rows2)
      = totalScrapedOf jid pn (rows1 ++ rows2)
    ∧ (parseRow jid pn good).isSome = true
    ∧ totalScrapedOf jid pn (rows1 ++ good :: rows2)
      = totalScrapedOf jid pn (rows1 ++ rows2) + 1 := by
  have hbad' :
      (truthyOpt (jsOrStr bad.asin bad.ASIN)
        && truthyOpt (jsOrStr bad.title bad.Title)) = false := by
    rw [lacksRequired] at hbad
    cases hx : (truthyOpt (jsOrStr bad.asin bad.ASIN)
        && truthyOpt (jsOrStr bad.title bad.Title)) with
    | false => rfl
    | true => rw [hx] at hbad; exact Bool.noConfusion hbad
  have hnone : parseRow jid pn bad = none := by
    rw [parseRow]
    by_cases hp : rowPassesSuccess bad
    · simp only [hp, if_true, hbad', Bool.false_eq_true, if_false]
    · simp only [Bool.not_eq_true] at hp
      simp only [hp, Bool.false_eq_true, if_false]
  have hgood' :
      (truthyOpt (jsOrStr good.asin good.ASIN)
        && truthyOpt (jsOrStr good.title good.Title)) = true := by
    rw [lacksRequired] at hg2
    cases hx : (truthyOpt (jsOrStr good.asin good.ASIN)
        && truthyOpt (jsOrStr good.title good.Title)) with
    | true => rfl
    | false => rw [hx] at hg2; exact Bool.noConfusion hg2
  have hsome : (parseRow jid pn good).isSome = true := by
    rw [parseRow]
    simp only [hg1, if_true, hgood', Option.isSome_some]
  obtain ⟨p, hp⟩ := Option.isSome_iff_exists.mp hsome
  refine ⟨hnone, ?_, ?_, hsome, ?_⟩
  · simp [ingestedProducts, List.filterMap_append, hnone]
  · simp [totalScrapedOf, ingestedProducts, List.filterMap_append, hnone]
  · simp [totalScrapedOf, ingestedProducts, List.filterMap_append, hp]
    omega

/-- Witness for C7: a file of one good row and one row missing `asin`. -/
theorem malformed_row_skipped_rest_processed_witness :
    lacksRequired { title := some "T2",
                    scraped_successfully := some "YES" } = true
    ∧ rowPassesSuccess { asin := some "A1", title := some "T1",
                         scraped_successfully := some "YES" } = true
    ∧ lacksRequired { asin := some "A1", title := some "T1",
                      scraped_successfully := some "YES" } = false
    ∧ (parseRow "job1" "mouse"
        { title := some "T2", scraped_successfully := some "YES" } = none
      ∧ ingestedProducts "job1" "mouse"
          ([] ++ { title := some "T2",
                   scraped_successfully := some "YES" }
            :: [{ asin := some "A1", title := some "T1",
                  scraped_successfully := some "YES" }])
        = ingestedProducts "job1" "mouse"
            ([] ++ [{ asin := some "A1", title := some "T1",
                      scraped_successfully := some "YES" }])
      ∧ totalScrapedOf "job1" "mouse"
          ([] ++ { title := some "T2",
                   scraped_successfully := some "YES" }
            :: [{ asin := some "A1", title := some "T1",
                  scraped_successfully := some "YES" }])
        = totalScrapedOf "job1" "mouse"
            ([] ++ [{ asin := some "A1", title := some "T1",
                      scraped_successfully := some "YES" }])
      ∧ (parseRow "job1" "mouse"
          { asin := some "A1", title := some "T1",
            scraped_successfully := some "YES" }).isSome = true
      ∧ totalScrapedOf "job1" "mouse"
          ([] ++ { asin := some "A1", title := some "T1",
                   scraped_successfully := some "YES" }
            :: [{ asin := some "A1", title := some "T1",
                  scraped_successfully := some "YES" }])
        = totalScrapedOf "job1" "mouse"
            ([] ++ [{ asin := some "A1", title := some "T1",
                      scraped_successfully := some "YES" }]) + 1) :=
  ⟨rfl, rfl, rfl,
    malformed_row_skipped_rest_processed "job1" "mouse" []
      [{ asin := some "A1", title := some "T1",
         scraped_successfully := some "YES" }]
      { title := some "T2", scraped_successfully := some "YES" }
      { asin := some "A1", title := some "T1",
        scraped_successfully := some "YES" }
      rfl rfl rfl⟩

/-! ### C3 — re-ingestion and duplicate asins -/

/-- C3: evaluation at the failing input.  `ProductSchema` declares no
unique index on `asin` (or on `asin`+`jobId`), so `insertMany` reports
success (`InsertOutcome.ok`) and inserts every document; running
`processScrapingResults` twice on the same one-row CSV for the same job
therefore leaves two `Product` records with the same `asin` and `jobId`,
although the service's own duplicate-key handling (`ordered: false`,
E11000 branch) shows re-ingestion was expected to be deduplicated. -/
theorem reingestion_creates_duplicate_asin_rows :
    ((processScrapingResults
        (processScrapingResults
          { jobs := [{ jobId := "job1", productName := "mouse",
                       status := "running" }] }
          "job1" "mouse"
          (some [{ asin := some "A1", title := some "T1",
                   scraped_successfully := some "YES" }])
          false .ok 100)
        "job1" "mouse"
        (some [{ asin := some "A1", title := some "T1",
                 scraped_successfully := some "YES" }])
        false .ok 200).products.filter
      (fun p => p.asin = "A1" ∧ p.jobId = "job1")).length = 2 := by
  rfl

/-! ### C4 — reported totalScraped versus rows actually inserted -/

/-- C4, counterexample: with one accepted row attempted and a store answer
of `dupKey []` (duplicate-key error, nothing inserted), the pipeline still
finalises the job with `results.totalScraped = 1` while zero products were
inserted — the reported count is the attempted count, not the count
actually persisted, refuting the claim. -/
theorem totalScraped_not_actual_inserted_cex :
    (processScrapingResults
        { jobs := [{ jobId := "job1", productName := "mouse",
                     status := "running" }] }
        "job1" "mouse"
        (some [{ asin := some "A1", title := some "T1",
                 scraped_successfully := some "YES" }])
        false (.dupKey []) 100).products.length = 0
    ∧ ((lookupJob
          (processScrapingResults
            { jobs := [{ jobId := "job1", productName := "mouse",
                         status := "running" }] }
            "job1" "mouse"
            (some [{ asin := some "A1", title := some "T1",
                     scraped_successfully := some "YES" }])
            false (.dupKey []) 100) "job1").map Job.resultsTotalScraped)
      = some 1
    ∧ ((lookupJob
          (processScrapingResults
            { jobs := [{ jobId := "job1", productName := "mouse",
                         status := "running" }] }
            "job1" "mouse"
            (some [{ asin := some "A1", title := some "T1",
                     scraped_successfully := some "YES" }])
            false (.dupKey []) 100) "job1").map Job.status)
      = some "completed" :=
  ⟨rfl, rfl, rfl⟩

/-- C4 (amended): a duplicate-key answer from the bulk insert does not
abort ingestion — the partial inserts are kept and the job is still
finalised as `completed` — but the job's reported `results.totalScraped`
is the number of accepted rows attempted (`ingestedProducts`), whatever
sub-list the store actually inserted. -/
theorem dupKey_insert_not_aborted_reports_attempted
    (st : ServerState) (jid pn : String) (rows : List Row)
    (inserted : List Product) (jsonExists : Bool) (now : Nat) (j : Job)
    (hj : lookupJob st jid = some j)
    (hne : ingestedProducts jid pn rows ≠ []) :
    (processScrapingResults st jid pn (some rows) jsonExists
        (.dupKey inserted) now).products = st.products ++ inserted
    ∧ lookupJob
        (processScrapingResults st jid pn (some rows) jsonExists
          (.dupKey inserted) now) jid
      = some { j with
          status := "completed"
          completedAt := some now
          resultsTotalScraped := (ingestedProducts jid pn rows).length
          resultsPagesProcessed := pagesProcessedOf jid pn rows
          resultsCsvFile := some (safeName pn ++ ".csv")
          resultsJsonFile :=
            if jsonExists then some (safeName pn ++ ".json") else none
          logs := j.logs
            ++ ["Scraping completed: "
                ++ toString (ingestedProducts jid pn rows).length
                ++ " products from "
                ++ showJsNum (pagesProcessedOf jid pn rows) ++ " pages"] } := by
  have hpos : 0 < (ingestedProducts jid pn rows).length :=
    List.length_pos.mpr hne
  have hun : processScrapingResults st jid pn (some rows) jsonExists
      (.dupKey inserted) now
    = finalizeJob
        { st with
            ingestionRuns := st.ingestionRuns ++ [jid]
            products := st.products ++ inserted }
        jid (ingestedProducts jid pn rows).length
        (pagesProcessedOf jid pn rows)
        (some (safeName pn ++ ".csv"))
        (if jsonExists then some (safeName pn ++ ".json") else none)
        now := by
    simp only [processScrapingResults]
    rw [if_pos hpos]
  rw [hun]
  refine ⟨rfl, ?_⟩
  have h1 := find?_findOneAndUpdate st.jobs jid
    (fun j => { j with
        status := "completed"
        completedAt := some now
        resultsTotalScraped := (ingestedProducts jid pn rows).length
        resultsPagesProcessed := pagesProcessedOf jid pn rows
        resultsCsvFile := some (safeName pn ++ ".csv")
        resultsJsonFile :=
          if jsonExists then some (safeName pn ++ ".json") else none
        logs := j.logs
          ++ ["Scraping completed: "
              ++ toString (ingestedProducts jid pn rows).length
              ++ " products from "
              ++ showJsNum (pagesProcessedOf jid pn rows) ++ " pages"] })
    (fun j' => rfl)
  show (findOneAndUpdate st.jobs jid _).find? (fun j' => j'.jobId = jid) = _
  rw [h1, show st.jobs.find? (fun j' => j'.jobId = jid) = some j from hj]
  rfl

/-- Witness for C4 (amended): one accepted row attempted, nothing actually
inserted, job completed with `results.totalScraped = 1`. -/
theorem dupKey_insert_not_aborted_reports_attempted_witness :
    lookupJob
        { jobs := [{ jobId := "job1", productName := "mouse",
                     status := "running" }] } "job1"
      = some { jobId := "job1", productName := "mouse", status := "running" }
    ∧ ingestedProducts "job1" "mouse"
        [{ asin := some "A1", title := some "T1",
           scraped_successfully := some "YES" }] ≠ []
    ∧ ((processScrapingResults
          { jobs := [{ jobId := "job1", productName := "mouse",
                       status := "running" }] }
          "job1" "mouse"
          (some [{ asin := some "A1", title := some "T1",
                   scraped_successfully := some "YES" }])
          false (.dupKey []) 100).products = [] ++ []
      ∧ lookupJob
          (processScrapingResults
            { jobs := [{ jobId := "job1", productName := "mouse",
                         status := "running" }] }
            "job1" "mouse"
            (some [{ asin := some "A1", title := some "T1",
                     scraped_successfully := some "YES" }])
            false (.dupKey []) 100) "job1"
        = some { jobId := "job1", productName := "mouse",
                 status := "completed", completedAt := some 100,
                 resultsTotalScraped := 1, resultsPagesProcessed := some 1,
                 resultsCsvFile := some "mouse.csv",
                 resultsJsonFile := none,
                 logs := ["Scraping completed: 1 products from 1 pages"] }) := by
  refine ⟨rfl, by decide, ?_⟩
  have h := dupKey_insert_not_aborted_reports_attempted
    { jobs := [{ jobId := "job1", productName := "mouse",
                 status := "running" }] }
    "job1" "mouse"
    [{ asin := some "A1", title := some "T1",
       scraped_successfully := some "YES" }]
    [] false 100
    { jobId := "job1", productName := "mouse", status := "running" }
    rfl (by decide)
  exact h

/-! ### C10 — the success-flag filter -/

/-- C10: a row passes the success filter exactly when the flag selected
from the accepted header spellings is a string that upper-cases to `"YES"`
or equals `"1"` (`csv-parser` delivers only strings, so the code's
`scrapedSuccess === true` disjunct can never fire: JS strict equality
between a string and a boolean is false); concretely, lowercase `"yes"` is
accepted through any spelling, while an absent flag or any other value is
skipped. -/
theorem success_filter_case_insensitive_characterization :
    (∀ r : Row, rowPassesSuccess r = true ↔
      ∃ s, successFlag r = some s ∧ (toUpperJS s = "YES" ∨ s = "1"))
    ∧ rowPassesSuccess { success := some "yes" } = true
    ∧ rowPassesSuccess { scraped_successfully := some "yes" } = true
    ∧ rowPassesSuccess { scrapedSuccessfullySpaced := some "Yes" } = true
    ∧ rowPassesSuccess { scrapedSuccessfullyLower := some "1" } = true
    ∧ rowPassesSuccess ({} : Row) = false
    ∧ rowPassesSuccess { scraped_successfully := some "no" } = false
    ∧ rowPassesSuccess { success := some "0" } = false := by
  refine ⟨?_, rfl, rfl, rfl, rfl, rfl, rfl, rfl⟩
  intro r
  rw [rowPassesSuccess]
  cases hf : successFlag r with
  | none =>
    simp [successFlagPasses]
  | some s =>
    simp only [successFlagPasses]
    constructor
    · intro h
      refine ⟨s, rfl, ?_⟩
      simpa using h
    · rintro ⟨s', hs', hcond⟩
      have hss : s' = s := by
        injection hs' with h
        exact h.symm
      subst hss
      simpa using hcond

end AmazonScraper
